import Mathlib

/-!
A shallow embedding of the ImageSubu browser-extension content scripts
(`src/unnamed/part_000`, two script variants, and
`src/extension/scripts/content.js`).  JavaScript numbers are modelled as
rationals (`ℚ`); the transcendental Box–Muller computation is modelled over
the reals.  DOM state relevant to the overlay logic is modelled explicitly:
each image element carries its load state, wrapper membership, the list of
overlay elements inside its wrapper, its processed-marker attribute and its
selection class; the page state adds the single selected-image reference and
the outbound selection-changed notifications.
-/

namespace ImageSubu

/-- `clamp = (value, min, max) => Math.min(Math.max(value, min), max)`
(part_000 line 12 / 236). -/
def clamp {α : Type} [LinearOrder α] (value lo hi : α) : α :=
  min (max value lo) hi

/-- The settings record `{noiseType, intensity}` held in `currentSettings`. -/
structure Settings where
  noiseType : String
  intensity : ℚ
deriving DecidableEq, Repr

/-- `DEFAULT_SETTINGS = {noiseType: 'uniform', intensity: 20}`
(part_000 lines 5-8 / 233). -/
def DEFAULT_SETTINGS : Settings :=
  { noiseType := "uniform", intensity := 20 }

/-- `SUPPORTED_NOISE_TYPES = new Set(['uniform', 'gaussian'])`
(part_000 line 10 / 234). -/
def SUPPORTED_NOISE_TYPES : List String :=
  ["uniform", "gaussian"]

/-- The result of JavaScript `Number(x)` coercion: either `NaN` or a
numeric value.  (`Number(undefined)` and `Number` of a non-numeric string
are `nan`; `Number(null) = val 0`, `Number("12") = val 12`, and so on —
the coercion itself happens outside the model, a raw field stores its
outcome.) -/
inductive JSNum where
  | nan : JSNum
  | val (q : ℚ) : JSNum
deriving DecidableEq, Repr

/-- A raw settings object as passed to `normalizeSettings`: the
`noiseType` field (`some` of a string when it holds a string, `none` when
absent or not a string — set membership fails either way), and the result
of `Number` applied to the `intensity` field. -/
structure RawFields where
  noiseType : Option String
  intensity : JSNum
deriving DecidableEq, Repr

/-- `Number(settings?.intensity)`: when `settings` is null/undefined the
optional chain yields `undefined` and `Number(undefined)` is `NaN`. -/
def jsIntensity : Option RawFields → JSNum
  | none => .nan
  | some r => r.intensity

/-- `normalizeSettings(settings)` (part_000 lines 130-140 / 363-373):
merge against defaults, accept `noiseType` only when it is a supported
kind, accept `intensity` only when `Number(settings?.intensity)` is not
`NaN`, clamped to `[0.5, 100]`. -/
def normalizeSettings (settings : Option RawFields) : Settings :=
  let merged := DEFAULT_SETTINGS
  let merged :=
    match settings with
    | some s =>
        match s.noiseType with
        | some t =>
            if SUPPORTED_NOISE_TYPES.contains t then
              { merged with noiseType := t }
            else merged
        | none => merged
    | none => merged
  match jsIntensity settings with
  | .val q => { merged with intensity := clamp q 0.5 100 }
  | .nan => merged

/-- `overlayOpacityFromIntensity(intensity)` (part_000 lines 72-75 /
298-301): `clamp(intensity / 100, 0.005, 1)`.  The source converts the
number to its decimal string for CSS (`0.2 ↦ "0.2"`); the model keeps the
numeric value, which the string rendering displays faithfully. -/
def overlayOpacityFromIntensity (intensity : ℚ) : ℚ :=
  clamp (intensity / 100) 0.005 1

/-- The style properties of an overlay span that the scripts mutate. -/
structure Overlay where
  backgroundImage : String
  opacity : ℚ
deriving DecidableEq, Repr

/-- An image element as the overlay logic observes it: load state, wrapper
membership (`image.closest('.ani-noise-wrapper')` non-null), the overlay
elements inside its wrapper in document order, the
`data-ani-noise-applied` processed marker, and the
`ani-noise-selected-image` class. -/
structure ImgNode where
  isElement : Bool
  complete : Bool
  naturalWidth : Nat
  naturalHeight : Nat
  hasParent : Bool
  wrapped : Bool
  overlays : List Overlay
  processed : Bool
  selectedClass : Bool
deriving DecidableEq, Repr

/-- The script-global texture state: `currentSettings` and `noisePattern`
(part_000 lines 51-52 / 275-276). -/
structure Env where
  settings : Settings
  noisePattern : String
deriving DecidableEq, Repr

/-- `applyOverlaySettings(overlay)` (part_000 lines 77-80 / 303-306): set
the background image from the current pattern (empty when the pattern is
the empty string) and the opacity from the current intensity. -/
def applyOverlaySettings (env : Env) (o : Overlay) : Overlay :=
  { o with
    backgroundImage :=
      if env.noisePattern = "" then "" else "url(" ++ env.noisePattern ++ ")",
    opacity := overlayOpacityFromIntensity env.settings.intensity }

/-- `createOverlay()` (part_000 lines 82-87 / 308-313): a fresh span
(default computed opacity `1`, no background) with the current settings
applied. -/
def createOverlay (env : Env) : Overlay :=
  applyOverlaySettings env { backgroundImage := "", opacity := 1 }

/-- `ensureWrapper(image)` (part_000 lines 54-70 / 280-296): reuse the
nearest wrapper ancestor, else insert a fresh wrapper between the image
and its parent; `none` models the null return when the image has no
parent. -/
def ensureWrapper (img : ImgNode) : Option ImgNode :=
  if img.wrapped then some img
  else if img.hasParent then some { img with wrapped := true }
  else none

/-- `doApply` inside the base variant's `applyNoise` (part_000 lines
98-111): wrap, then either just mark processed (an overlay is already
present) or append a fresh overlay and mark processed. -/
def doApply1 (env : Env) (img : ImgNode) : ImgNode :=
  match ensureWrapper img with
  | none => img
  | some w =>
      if w.overlays = [] then
        { w with overlays := w.overlays ++ [createOverlay env], processed := true }
      else { w with processed := true }

/-- `applyNoise(image)` of the base variant (part_000 lines 89-118): skip
non-elements and images already marked processed; mutate now when the
image is loaded.  (A not-yet-loaded image only registers a one-shot load
callback and leaves the tree unchanged; the model covers the loaded
case.) -/
def applyNoise1 (env : Env) (img : ImgNode) : ImgNode :=
  if img.isElement = false then img
  else if img.processed = true then img
  else if img.complete = true ∧ 0 < img.naturalWidth then doApply1 env img
  else img

/-- `doApply` inside the selection variant's `applyNoise` (part_000 lines
332-348): when an overlay already exists its style is re-applied in
place. -/
def doApply2 (env : Env) (img : ImgNode) : ImgNode :=
  match ensureWrapper img with
  | none => img
  | some w =>
      match w.overlays with
      | o :: rest =>
          { w with overlays := applyOverlaySettings env o :: rest, processed := true }
      | [] => { w with overlays := [createOverlay env], processed := true }

/-- `applyNoise(image)` of the selection variant (part_000 lines 327-355):
like the base variant but without the processed-marker early return. -/
def applyNoise2 (env : Env) (img : ImgNode) : ImgNode :=
  if img.isElement = false then img
  else if img.complete = true ∧ 0 < img.naturalWidth then doApply2 env img
  else img

/-- The selection variant's page-level state: the image elements (indexed
by a node identity), the `selectedImage` reference, and the list of
`hasSelected` flags sent by `notifySelectionChanged` so far. -/
structure PageState where
  imgs : Nat → ImgNode
  selected : Option Nat
  notifications : List Bool

/-- Rewrite one image node of the page in place. -/
def updImg (s : PageState) (i : Nat) (f : ImgNode → ImgNode) : PageState :=
  { s with imgs := Function.update s.imgs i (f (s.imgs i)) }

/-- `removeOverlay(image)` (part_000 lines 315-325): nothing happens
without a wrapper; otherwise the first overlay in the wrapper (if any) is
removed and the processed marker is cleared. -/
def removeOverlayNode (img : ImgNode) : ImgNode :=
  if img.wrapped then
    { img with overlays := img.overlays.tail, processed := false }
  else img

/-- `notifySelectionChanged()` (part_000 lines 384-397): best-effort
outbound message carrying `Boolean(selectedImage)`; the model records each
sent flag. -/
def notifySelectionChanged (s : PageState) : PageState :=
  { s with notifications := s.notifications ++ [s.selected.isSome] }

/-- `selectImage(image)` (part_000 lines 399-413): no-op when the image is
already selected; otherwise deselect the previous image (drop its class,
remove its overlay, clear its marker), commit the new selection, add the
selected class, apply noise and notify. -/
def selectImage (env : Env) (s : PageState) (image : Nat) : PageState :=
  if s.selected = some image then s
  else
    let s1 :=
      match s.selected with
      | some prev =>
          updImg (updImg s prev (fun im => { im with selectedClass := false }))
            prev removeOverlayNode
      | none => s
    let s2 := { s1 with selected := some image }
    let s3 := updImg s2 image (fun im => { im with selectedClass := true })
    let s4 := updImg s3 image (applyNoise2 env)
    notifySelectionChanged s4

/-- `refreshAllOverlays()` (part_000 lines 124-128 / 357-361): re-apply
the current settings to every overlay element in the document. -/
def refreshAllOverlays (env : Env) (s : PageState) : PageState :=
  { s with
    imgs := fun i =>
      { s.imgs i with
        overlays := (s.imgs i).overlays.map (applyOverlaySettings env) } }

/-- Fixture: a fresh, loaded image element with a parent. -/
def freshImg : ImgNode :=
  { isElement := true, complete := true, naturalWidth := 4, naturalHeight := 4,
    hasParent := true, wrapped := false, overlays := [], processed := false,
    selectedClass := false }

/-- Fixture: default environment with a non-empty noise pattern. -/
def env0 : Env := { settings := DEFAULT_SETTINGS, noisePattern := "pat" }

/-- Fixture: environment after the intensity was changed to 50. -/
def env50 : Env :=
  { settings := { noiseType := "uniform", intensity := 50 }, noisePattern := "pat" }

/-- Fixture: a page of fresh images with nothing selected. -/
def pageS0 : PageState :=
  { imgs := fun _ => freshImg, selected := none, notifications := [] }

/-- Fixture: an image wrapped with a single overlay at opacity `0.2`. -/
def overlaidImg : ImgNode :=
  { freshImg with
      wrapped := true
      overlays := [{ backgroundImage := "url(pat)", opacity := 0.2 }]
      processed := true }

/-- Fixture: a page whose image 0 is overlaid and selected. -/
def pageS1 : PageState :=
  { imgs := fun _ => overlaidImg, selected := some 0, notifications := [] }

/-- A JavaScript `Error` as the export path observes it: its `message`. -/
structure JSError where
  message : String
deriving DecidableEq, Repr

/-- `noiseDelta(type, intensity)` (part_000 lines 425-431) applied to one
random draw from `[0,1]` (uniform `Math.random()` or
`randomGaussianUnit()`, depending on the type; the draw itself is an
input): `(draw - 0.5) * 2 * (clamp(intensity / 100, 0.005, 1) * 128)`. -/
def noiseDelta (intensity : ℚ) (draw : ℚ) : ℚ :=
  (draw - 0.5) * 2 * (clamp (intensity / 100) 0.005 1 * 128)

/-- The per-pixel loop of `finalize` (part_000 lines 465-470): one fresh
delta per pixel, added to the three colour channels and clamped to
`[0, 255]`, alpha untouched.  (An `ImageData` buffer's length is a
multiple of 4.) -/
def addNoise (intensity : ℚ) (draws : Nat → ℚ) : Nat → List ℚ → List ℚ
  | _, [] => []
  | k, r :: g :: b :: a :: rest =>
      let d := noiseDelta intensity (draws k)
      clamp (r + d) 0 255 :: clamp (g + d) 0 255 :: clamp (b + d) 0 255 :: a ::
        addNoise intensity draws (k + 1) rest
  | _, l => l

/-- The drawing-surface environment of one export: whether
`getContext('2d')` succeeds, the outcome of
`drawImage` + `getImageData` (which throw a security error on a tainted
canvas), the per-pixel random draws, and the `toDataURL` encoder. -/
structure ExportEnv where
  ctxAvailable : Bool
  pixelRead : Except JSError (List ℚ)
  draws : Nat → ℚ
  encodePng : List ℚ → String

/-- `generateNoisyDataUrl(image, settings)` (part_000 lines 433-488) as
the eventual settlement of its promise (`finalize` runs at once for a
loaded image, or at the one-shot load event): a missing image, an image
without measurable dimensions, and an unobtainable drawing surface each
reject with their own error; a throw from the pixel read rejects with that
error; otherwise the noised pixel buffer is encoded and resolved. -/
def generateNoisyDataUrl (image : Option ImgNode) (settings : Settings)
    (xenv : ExportEnv) : Except JSError String :=
  match image with
  | none => .error { message := "선택된 이미지가 없습니다." }
  | some img =>
      if img.naturalWidth = 0 ∨ img.naturalHeight = 0 then
        .error { message := "이미지 크기를 불러올 수 없습니다." }
      else if xenv.ctxAvailable = false then
        .error { message := "캔버스 컨텍스트 생성에 실패했습니다." }
      else
        match xenv.pixelRead with
        | .error e => .error e
        | .ok data => .ok (xenv.encodePng (addNoise settings.intensity xenv.draws 0 data))

/-- Is `pat` an infix of `s` (over the characters)? -/
def charsContain (pat : List Char) : List Char → Bool
  | [] => pat.isEmpty
  | c :: rest => (pat.isPrefixOf (c :: rest) : Bool) || charsContain pat rest

/-- `/tainted|cross-origin|security/i.test(msg)` (part_000 line 619):
case-insensitive containment of one of the three markers. -/
def isSecurityErrorMsg (msg : String) : Bool :=
  let lower := msg.data.map Char.toLower
  charsContain "tainted".data lower || charsContain "cross-origin".data lower ||
    charsContain "security".data lower

/-- A `sendResponse` payload of the `ANI_GENERATE_NOISY_IMAGE` handler. -/
structure GenResponse where
  ok : Bool
  error : Option String
  dataUrl : Option String
deriving DecidableEq, Repr

/-- The `ANI_GENERATE_NOISY_IMAGE` branch of the message handler
(part_000 lines 606-629): respond with an error when nothing is selected;
otherwise normalize `payload ?? currentSettings`, run the export, and map
a rejection to a response — the localized security-restriction message
when the error message matches the security test, the error's own message
otherwise, or the generic failure message when that is empty.  The page
and texture state are returned alongside; the handler never assigns to
them. -/
def handleGenerateNoisyImage (env : Env) (s : PageState)
    (payload : Option RawFields) (xenv : ExportEnv) :
    (Env × PageState) × GenResponse :=
  match s.selected with
  | none =>
      ((env, s),
       { ok := false, error := some "먼저 이미지를 선택해 주세요.", dataUrl := none })
  | some i =>
      let settings :=
        normalizeSettings
          (match payload with
           | some p => some p
           | none =>
               some { noiseType := some env.settings.noiseType,
                      intensity := .val env.settings.intensity })
      match generateNoisyDataUrl (some (s.imgs i)) settings xenv with
      | .ok url => ((env, s), { ok := true, error := none, dataUrl := some url })
      | .error e =>
          ((env, s),
           { ok := false,
             error := some
               (if isSecurityErrorMsg e.message then
                  "보안 제한 때문에 이미지를 저장할 수 없습니다."
                else if e.message = "" then "이미지 저장에 실패했습니다."
                else e.message),
             dataUrl := none })

/-- Fixture: an export environment whose pixel read succeeds. -/
def xenvOk : ExportEnv :=
  { ctxAvailable := true, pixelRead := .ok [10, 20, 30, 255],
    draws := fun _ => 0.5, encodePng := fun _ => "data:image/png;base64,ok" }

/-- Fixture: an export environment whose pixel read throws the tainted
canvas security error. -/
def xenvTainted : ExportEnv :=
  { xenvOk with
      pixelRead := .error
        { message := "The canvas has been tainted by cross-origin data." } }

/-- Fixture: an image with `naturalWidth = 0`. -/
def zeroWidthImg : ImgNode := { freshImg with naturalWidth := 0 }

/-- Fixture: a page whose image 0 is selected but has no measurable
dimensions. -/
def pageZeroWidth : PageState :=
  { imgs := fun _ => zeroWidthImg, selected := some 0, notifications := [] }

/-- A change record for the `noiseType` key: `newValue` as a string when
it holds one (`none` models `undefined` or a non-string value, which the
supported-set test rejects either way). -/
structure NoiseTypeChange where
  newValue : Option String
deriving DecidableEq, Repr

/-- A change record for the `intensity` key: `none` models an `undefined`
`newValue`; otherwise the result of `Number(newValue)`. -/
structure IntensityChange where
  newValue : Option JSNum
deriving DecidableEq, Repr

/-- The `changes` object of a `storage.onChanged` event, restricted to the
recognized keys (`none` when a key is absent from the change set). -/
structure StorageChanges where
  noiseType : Option NoiseTypeChange
  intensity : Option IntensityChange
deriving DecidableEq, Repr

/-- The `storage.onChanged` listener body (part_000 lines 163-193 /
490-520): ignore areas other than `local`; accept a supported new noise
type and a defined, numerically parseable new intensity (clamped to
`[0.5, 100]`); call `applySettings(updated)` only when at least one field
was accepted.  The result is the settings record passed to
`applySettings`, or `none` when no recomputation is triggered. -/
def handleStorageChange (changes : StorageChanges) (areaName : String)
    (cur : Settings) : Option Settings :=
  if areaName ≠ "local" then none
  else
    let p1 : Settings × Bool :=
      match changes.noiseType with
      | some c =>
          match c.newValue with
          | some t =>
              if SUPPORTED_NOISE_TYPES.contains t then
                ({ cur with noiseType := t }, true)
              else (cur, false)
          | none => (cur, false)
      | none => (cur, false)
    let p2 : Settings × Bool :=
      match changes.intensity with
      | some c =>
          match c.newValue with
          | some (.val q) => ({ p1.1 with intensity := clamp q 0.5 100 }, true)
          | some .nan => (p1.1, p1.2)
          | none => (p1.1, p1.2)
      | none => (p1.1, p1.2)
    if p1.2 || p2.2 then some p2.1 else none

/-- Modelled from the spec's words, for comparison with the listener: "at
least one recognized field (`noiseType` or `intensity`) actually changed
value", i.e. the field appears in the delivered change set. -/
def specRecognizedFieldChanged (changes : StorageChanges) : Bool :=
  changes.noiseType.isSome || changes.intensity.isSome

/-- The condition the listener actually requires: a recognized field
changed to an accepted value — a supported noise type, or a defined,
numerically parseable intensity. -/
def acceptedFieldChange (changes : StorageChanges) : Bool :=
  (match changes.noiseType with
   | some c =>
       match c.newValue with
       | some t => SUPPORTED_NOISE_TYPES.contains t
       | none => false
   | none => false) ||
  (match changes.intensity with
   | some c =>
       match c.newValue with
       | some (.val _) => true
       | some .nan => false
       | none => false
   | none => false)

/-- Fixture: a change set where the recognized `noiseType` key changed,
but to an unsupported kind. -/
def cexNoiseChange : StorageChanges :=
  { noiseType := some { newValue := some "perlin" }, intensity := none }

/-- Fixture: a change set where the `noiseType` key changed to a
supported kind. -/
def okNoiseChange : StorageChanges :=
  { noiseType := some { newValue := some "gaussian" }, intensity := none }

/-- `randomGaussianUnit()` (part_000 lines 14-22 / 238-246) as a function
of the two non-zero uniform draws `u`, `v` produced by its rejection
loops: the Box–Muller standard normal, rescaled by `(z + 3) / 6` and
clamped to `[0, 1]`. -/
noncomputable def randomGaussianUnit (u v : ℝ) : ℝ :=
  let standardNormal := Real.sqrt (-2 * Real.log u) * Real.cos (2 * Real.pi * v)
  let normalized := (standardNormal + 3) / 6
  clamp normalized 0 1

/-- The per-pixel grey level of the gaussian texture (part_000 lines
35-45 / 259-269): `Math.floor(shadeValue * 255)` with
`shadeValue = randomGaussianUnit()`. -/
noncomputable def gaussianShade (u v : ℝ) : ℤ :=
  ⌊randomGaussianUnit u v * 255⌋

/-- Modelled from the spec's words, for comparison with the code:
`floor(clamp((z + 3) / 6, 0, 1) * 255)` where
`z = sqrt(-2 ln u) * cos(2 π v)`. -/
noncomputable def specGaussianGrey (u v : ℝ) : ℤ :=
  ⌊clamp ((Real.sqrt (-2 * Real.log u) * Real.cos (2 * Real.pi * v) + 3) / 6) 0 1 * 255⌋

/-- The intensity field of a normalized settings record, as a function of
the coerced raw intensity. -/
lemma normalizeSettings_intensity (s : Option RawFields) :
    (normalizeSettings s).intensity =
      match jsIntensity s with
      | .val q => clamp q 0.5 100
      | .nan => 20 := by
  rcases s with _ | ⟨nt, it⟩
  · rfl
  · rcases it with _ | q
    · rcases nt with _ | t
      · rfl
      · unfold normalizeSettings
        simp only [jsIntensity]
        split <;> rfl
    · rfl

/-- Claim C2: for every input to `normalizeSettings`, a numerically
parseable intensity is clamped into `[0.5, 100]` in the result (and the
result indeed lies in that interval), and a non-parseable intensity leaves
the default intensity `20` in the result. -/
theorem C2_normalizeSettings_intensity (settings : Option RawFields) :
    (∀ q : ℚ, jsIntensity settings = .val q →
      (normalizeSettings settings).intensity = clamp q 0.5 100 ∧
      0.5 ≤ (normalizeSettings settings).intensity ∧
      (normalizeSettings settings).intensity ≤ 100) ∧
    (jsIntensity settings = .nan →
      (normalizeSettings settings).intensity = 20) := by
  constructor
  · intro q hq
    have hres : (normalizeSettings settings).intensity = clamp q 0.5 100 := by
      rw [normalizeSettings_intensity, hq]
    refine ⟨hres, ?_, ?_⟩
    · rw [hres]
      exact le_min (le_max_right _ _) (by norm_num)
    · rw [hres]
      exact min_le_right _ _
  · intro hq
    rw [normalizeSettings_intensity, hq]

/-- Witness for C2 at concrete inputs: `Number` result `250` is clamped to
`100`; a `NaN` intensity keeps the default `20`. -/
theorem C2_normalizeSettings_intensity_witness :
    (normalizeSettings (some ⟨some "uniform", .val 250⟩)).intensity = clamp 250 0.5 100 ∧
    (normalizeSettings (some ⟨some "uniform", .nan⟩)).intensity = 20 :=
  ⟨((C2_normalizeSettings_intensity (some ⟨some "uniform", .val 250⟩)).1 250 rfl).1,
   (C2_normalizeSettings_intensity (some ⟨some "uniform", .nan⟩)).2 rfl⟩

/-- Claim C3: the overlay opacity function is `clamp(intensity/100,
0.005, 1)`; it is monotone non-decreasing in the intensity, bounded into
`[0.005, 1]`, and on the spec's examples: intensity `20` gives `0.2`,
intensity `0.5` gives `0.005`, and intensity `150` is first normalized to
`100` by `normalizeSettings` and then gives opacity `1`. -/
theorem C3_overlayOpacity (x y : ℚ) (hxy : x ≤ y) :
    overlayOpacityFromIntensity x = clamp (x / 100) 0.005 1 ∧
    overlayOpacityFromIntensity x ≤ overlayOpacityFromIntensity y ∧
    0.005 ≤ overlayOpacityFromIntensity x ∧
    overlayOpacityFromIntensity x ≤ 1 ∧
    overlayOpacityFromIntensity 20 = 0.2 ∧
    overlayOpacityFromIntensity 0.5 = 0.005 ∧
    (normalizeSettings (some ⟨some "uniform", .val 150⟩)).intensity = 100 ∧
    overlayOpacityFromIntensity 100 = 1 := by
  refine ⟨rfl, ?_, ?_, ?_,
    by norm_num [overlayOpacityFromIntensity, clamp, min_def, max_def],
    by norm_num [overlayOpacityFromIntensity, clamp, min_def, max_def],
    by norm_num [normalizeSettings_intensity, jsIntensity, clamp, min_def, max_def],
    by norm_num [overlayOpacityFromIntensity, clamp, min_def, max_def]⟩
  · unfold overlayOpacityFromIntensity clamp
    have h : x / 100 ≤ y / 100 := by linarith
    exact min_le_min (max_le_max h le_rfl) le_rfl
  · exact le_min (le_max_right _ _) (by norm_num)
  · exact min_le_right _ _

/-- Witness for C3 at concrete intensities `5 ≤ 80`. -/
theorem C3_overlayOpacity_witness :
    overlayOpacityFromIntensity 5 = clamp (5 / 100) 0.005 1 ∧
    overlayOpacityFromIntensity 5 ≤ overlayOpacityFromIntensity 80 ∧
    0.005 ≤ overlayOpacityFromIntensity 5 ∧
    overlayOpacityFromIntensity 5 ≤ 1 ∧
    overlayOpacityFromIntensity 20 = 0.2 ∧
    overlayOpacityFromIntensity 0.5 = 0.005 ∧
    (normalizeSettings (some ⟨some "uniform", .val 150⟩)).intensity = 100 ∧
    overlayOpacityFromIntensity 100 = 1 :=
  C3_overlayOpacity 5 80 (by norm_num)

/-- Re-applying the current settings to an overlay a second time changes
nothing: both style fields are overwritten with values that depend only on
the environment. -/
lemma applyOverlaySettings_idem (env : Env) (o : Overlay) :
    applyOverlaySettings env (applyOverlaySettings env o) = applyOverlaySettings env o :=
  rfl

/-- The base variant's `applyNoise` skips an image already marked
processed. -/
lemma applyNoise1_skip (env : Env) (im : ImgNode) (h : im.processed = true) :
    applyNoise1 env im = im := by
  simp [applyNoise1, h]

/-- Shape of the base variant's `applyNoise` on a fresh, loaded image with
a parent: it gets wrapped, gains exactly one overlay and is marked
processed. -/
lemma applyNoise1_shape (env : Env) (img : ImgNode)
    (hel : img.isElement = true) (hnp : img.processed = false)
    (hc : img.complete = true) (hw : 0 < img.naturalWidth)
    (hp : img.hasParent = true) (hov : img.overlays = []) :
    applyNoise1 env img =
      { img with wrapped := true, overlays := [createOverlay env], processed := true } := by
  unfold applyNoise1 doApply1 ensureWrapper
  by_cases hwr : img.wrapped <;> simp [hel, hnp, hc, hw, hp, hwr, hov]

/-- Shape of the selection variant's `applyNoise` on a loaded,
overlay-free image with a parent. -/
lemma applyNoise2_shape (env : Env) (img : ImgNode)
    (hel : img.isElement = true) (hc : img.complete = true)
    (hw : 0 < img.naturalWidth) (hp : img.hasParent = true)
    (hov : img.overlays = []) :
    applyNoise2 env img =
      { img with wrapped := true, overlays := [createOverlay env], processed := true } := by
  unfold applyNoise2 doApply2 ensureWrapper
  by_cases hwr : img.wrapped <;> simp [hel, hc, hw, hp, hwr, hov]

/-- The selection variant's `applyNoise` fixes any loaded, wrapped,
processed image whose single overlay already carries the current
settings. -/
lemma applyNoise2_fixed (env : Env) (im : ImgNode)
    (hel : im.isElement = true) (hc : im.complete = true)
    (hw : 0 < im.naturalWidth) (hwr : im.wrapped = true)
    (hov : im.overlays = [createOverlay env]) (hpr : im.processed = true) :
    applyNoise2 env im = im := by
  have hco : applyOverlaySettings env (createOverlay env) = createOverlay env := rfl
  unfold applyNoise2 doApply2 ensureWrapper
  simp only [hel, hc, hw, hwr, hov, hpr, hco]
  cases im
  simp_all

/-- Claim C1: `applyNoise` is idempotent.  The base variant skips any
image already marked processed; on a fresh, loaded image with a parent,
applying noise any positive number of times — with either variant's
`applyNoise` — leaves exactly one overlay element inside the image's
wrapper, and the selection variant's `applyNoise` is idempotent as a
function. -/
theorem C1_applyNoise_idempotent (env : Env) (img : ImgNode) (n : ℕ)
    (hel : img.isElement = true) (hnp : img.processed = false)
    (hc : img.complete = true) (hw : 0 < img.naturalWidth)
    (hp : img.hasParent = true) (hov : img.overlays = []) :
    (∀ im : ImgNode, im.processed = true → applyNoise1 env im = im) ∧
    ((applyNoise1 env)^[n + 1] img).overlays.length = 1 ∧
    ((applyNoise2 env)^[n + 1] img).overlays.length = 1 ∧
    applyNoise2 env (applyNoise2 env img) = applyNoise2 env img := by
  have h1 := applyNoise1_shape env img hel hnp hc hw hp hov
  have h2 := applyNoise2_shape env img hel hc hw hp hov
  have hfix1 : applyNoise1 env
      { img with wrapped := true, overlays := [createOverlay env], processed := true } =
      { img with wrapped := true, overlays := [createOverlay env], processed := true } :=
    applyNoise1_skip env _ rfl
  have hfix2 : applyNoise2 env
      { img with wrapped := true, overlays := [createOverlay env], processed := true } =
      { img with wrapped := true, overlays := [createOverlay env], processed := true } :=
    applyNoise2_fixed env _ hel hc hw rfl rfl rfl
  refine ⟨fun im h => applyNoise1_skip env im h, ?_, ?_, ?_⟩
  · rw [Function.iterate_succ_apply, h1, Function.iterate_fixed hfix1 n]
    rfl
  · rw [Function.iterate_succ_apply, h2, Function.iterate_fixed hfix2 n]
    rfl
  · rw [h2]
    exact hfix2

/-- Witness for C1: a concrete fresh, loaded image, three applications. -/
theorem C1_applyNoise_idempotent_witness :
    (∀ im : ImgNode, im.processed = true →
      applyNoise1 ⟨DEFAULT_SETTINGS, "p"⟩ im = im) ∧
    ((applyNoise1 ⟨DEFAULT_SETTINGS, "p"⟩)^[3]
        ⟨true, true, 4, 4, true, false, [], false, false⟩).overlays.length = 1 ∧
    ((applyNoise2 ⟨DEFAULT_SETTINGS, "p"⟩)^[3]
        ⟨true, true, 4, 4, true, false, [], false, false⟩).overlays.length = 1 ∧
    applyNoise2 ⟨DEFAULT_SETTINGS, "p"⟩
        (applyNoise2 ⟨DEFAULT_SETTINGS, "p"⟩
          ⟨true, true, 4, 4, true, false, [], false, false⟩) =
      applyNoise2 ⟨DEFAULT_SETTINGS, "p"⟩
        ⟨true, true, 4, 4, true, false, [], false, false⟩ :=
  C1_applyNoise_idempotent ⟨DEFAULT_SETTINGS, "p"⟩
    ⟨true, true, 4, 4, true, false, [], false, false⟩ 2
    rfl rfl rfl (by norm_num) rfl rfl

/-- `selectImage` always leaves the committed image as the selection. -/
lemma selectImage_selected (env : Env) (s : PageState) (i : Nat) :
    (selectImage env s i).selected = some i := by
  unfold selectImage
  by_cases h : s.selected = some i
  · simp [h]
  · cases hs : s.selected with
    | none => simp [hs, notifySelectionChanged, updImg]
    | some prev =>
        rw [hs] at h
        simp [hs, h, notifySelectionChanged, updImg]

/-- Effect of `selectImage` on the newly selected image: selected class
added, then `applyNoise`. -/
lemma selectImage_imgs_self (env : Env) (s : PageState) (i : Nat)
    (h : s.selected ≠ some i) :
    (selectImage env s i).imgs i =
      applyNoise2 env { s.imgs i with selectedClass := true } := by
  unfold selectImage
  cases hs : s.selected with
  | none =>
      simp [hs, notifySelectionChanged, updImg, Function.update_same]
  | some prev =>
      rw [hs] at h
      have hpi : prev ≠ i := fun he => h (by rw [he])
      simp [hs, hpi, notifySelectionChanged, updImg, Function.update_same,
        Function.update_noteq hpi.symm]

/-- Effect of `selectImage` on the previously selected image: selected
class removed, then `removeOverlay`. -/
lemma selectImage_imgs_prev (env : Env) (s : PageState) (i prev : Nat)
    (hs : s.selected = some prev) (hpi : prev ≠ i) :
    (selectImage env s i).imgs prev =
      removeOverlayNode { s.imgs prev with selectedClass := false } := by
  unfold selectImage
  simp [hs, hpi, notifySelectionChanged, updImg, Function.update_same,
    Function.update_noteq hpi]

/-- `selectImage` leaves every uninvolved image untouched. -/
lemma selectImage_imgs_other (env : Env) (s : PageState) (i j : Nat)
    (hji : j ≠ i) (hjsel : s.selected ≠ some j) :
    (selectImage env s i).imgs j = s.imgs j := by
  unfold selectImage
  by_cases h : s.selected = some i
  · simp [h]
  · cases hs : s.selected with
    | none =>
        simp [hs, notifySelectionChanged, updImg, Function.update_noteq hji]
    | some prev =>
        rw [hs] at h hjsel
        have hpj : j ≠ prev := fun he => hjsel (by rw [he])
        have hpi : prev ≠ i := fun he => h (by rw [he])
        simp [hs, hpi, notifySelectionChanged, updImg,
          Function.update_noteq hji, Function.update_noteq hpj]

/-- Claim C5: selecting image A and then image B (both fresh, loaded,
with parents, neither currently selected) leaves B as the sole selection
with exactly one overlay on B, the selected class and processed marker on
B, while A's overlay is removed, A's processed marker is cleared, A's
selected class is removed, and every uninvolved image is untouched. -/
theorem C5_selection_exclusive (env : Env) (s : PageState) (A B : Nat)
    (hAB : A ≠ B) (hselA : s.selected ≠ some A) (hselB : s.selected ≠ some B)
    (hAel : (s.imgs A).isElement = true) (hAc : (s.imgs A).complete = true)
    (hAw : 0 < (s.imgs A).naturalWidth) (hAp : (s.imgs A).hasParent = true)
    (hAov : (s.imgs A).overlays = [])
    (hBel : (s.imgs B).isElement = true) (hBc : (s.imgs B).complete = true)
    (hBw : 0 < (s.imgs B).naturalWidth) (hBp : (s.imgs B).hasParent = true)
    (hBov : (s.imgs B).overlays = []) :
    (selectImage env (selectImage env s A) B).selected = some B ∧
    ((selectImage env (selectImage env s A) B).imgs B).overlays.length = 1 ∧
    ((selectImage env (selectImage env s A) B).imgs B).selectedClass = true ∧
    ((selectImage env (selectImage env s A) B).imgs B).processed = true ∧
    ((selectImage env (selectImage env s A) B).imgs A).overlays = [] ∧
    ((selectImage env (selectImage env s A) B).imgs A).processed = false ∧
    ((selectImage env (selectImage env s A) B).imgs A).selectedClass = false ∧
    (∀ j, j ≠ A → j ≠ B → s.selected ≠ some j →
      (selectImage env (selectImage env s A) B).imgs j = s.imgs j) := by
  have hs1sel : (selectImage env s A).selected = some A :=
    selectImage_selected env s A
  have hs1selB : (selectImage env s A).selected ≠ some B := by
    rw [hs1sel]; simp [hAB]
  have hs1A : (selectImage env s A).imgs A =
      { s.imgs A with
          selectedClass := true
          wrapped := true
          overlays := [createOverlay env]
          processed := true } := by
    rw [selectImage_imgs_self env s A hselA]
    exact applyNoise2_shape env { s.imgs A with selectedClass := true }
      hAel hAc hAw hAp hAov
  have hs1B : (selectImage env s A).imgs B = s.imgs B :=
    selectImage_imgs_other env s A B (Ne.symm hAB) hselB
  have hs2B : (selectImage env (selectImage env s A) B).imgs B =
      { s.imgs B with
          selectedClass := true
          wrapped := true
          overlays := [createOverlay env]
          processed := true } := by
    rw [selectImage_imgs_self env _ B hs1selB, hs1B]
    exact applyNoise2_shape env { s.imgs B with selectedClass := true }
      hBel hBc hBw hBp hBov
  have hs2A : (selectImage env (selectImage env s A) B).imgs A =
      removeOverlayNode
        { (selectImage env s A).imgs A with selectedClass := false } :=
    selectImage_imgs_prev env _ B A hs1sel hAB
  rw [hs1A] at hs2A
  refine ⟨selectImage_selected env _ B, ?_, ?_, ?_, ?_, ?_, ?_, ?_⟩
  · rw [hs2B]; rfl
  · rw [hs2B]
  · rw [hs2B]
  · rw [hs2A]; simp [removeOverlayNode]
  · rw [hs2A]; simp [removeOverlayNode]
  · rw [hs2A]; simp [removeOverlayNode]
  · intro j hjA hjB hjsel
    rw [selectImage_imgs_other env _ B j hjB (by rw [hs1sel]; simp [Ne.symm hjA]),
      selectImage_imgs_other env s A j hjA hjsel]

/-- Witness for C5: two fresh images 0 and 1 on a page with no selection;
image 2 stands for an uninvolved bystander. -/
theorem C5_selection_exclusive_witness :
    (selectImage env0 (selectImage env0 pageS0 0) 1).selected = some 1 ∧
    ((selectImage env0 (selectImage env0 pageS0 0) 1).imgs 1).overlays.length = 1 ∧
    ((selectImage env0 (selectImage env0 pageS0 0) 1).imgs 1).selectedClass = true ∧
    ((selectImage env0 (selectImage env0 pageS0 0) 1).imgs 1).processed = true ∧
    ((selectImage env0 (selectImage env0 pageS0 0) 1).imgs 0).overlays = [] ∧
    ((selectImage env0 (selectImage env0 pageS0 0) 1).imgs 0).processed = false ∧
    ((selectImage env0 (selectImage env0 pageS0 0) 1).imgs 0).selectedClass = false ∧
    (selectImage env0 (selectImage env0 pageS0 0) 1).imgs 2 = pageS0.imgs 2 := by
  have h := C5_selection_exclusive env0 pageS0 0 1 (by decide)
    (by simp [pageS0]) (by simp [pageS0]) rfl rfl (by decide) rfl rfl
    rfl rfl (by decide) rfl rfl
  exact ⟨h.1, h.2.1, h.2.2.1, h.2.2.2.1, h.2.2.2.2.1, h.2.2.2.2.2.1,
    h.2.2.2.2.2.2.1,
    h.2.2.2.2.2.2.2 2 (by decide) (by decide) (by simp [pageS0])⟩

/-- Claim C10: `selectImage` on the image that is already the current
selection is a no-op — the whole page state (overlays, classes, markers,
notification log) is returned unchanged. -/
theorem C10_selectImage_noop (env : Env) (s : PageState) (i : Nat)
    (h : s.selected = some i) :
    selectImage env s i = s := by
  simp [selectImage, h]

/-- Witness for C10: re-selecting the already selected image 0. -/
theorem C10_selectImage_noop_witness :
    selectImage env0 pageS1 0 = pageS1 :=
  C10_selectImage_noop env0 pageS1 0 rfl

/-- Counterexample for claim C9: `refreshAllOverlays` does not leave every
node property other than the background reference unchanged — after the
intensity changes to 50, the overlay's `opacity` property changes from
`0.2` to `0.5`. -/
theorem C9_refresh_counterexample :
    ((refreshAllOverlays env50 pageS1).imgs 0).overlays.map Overlay.opacity ≠
      (pageS1.imgs 0).overlays.map Overlay.opacity := by
  norm_num [refreshAllOverlays, pageS1, overlaidImg, freshImg, env50,
    applyOverlaySettings, overlayOpacityFromIntensity, clamp, min_def, max_def]

/-- Claim C9 as amended: `refreshAllOverlays` mutates existing DOM nodes
only by re-applying each overlay's background reference and opacity; the
wrapper structure, the images' load state, their processed markers, their
classes, the overlay count, the selection and the notification log are all
unchanged. -/
theorem C9_refresh_frame (env : Env) (s : PageState) (i : Nat) :
    ((refreshAllOverlays env s).imgs i).overlays =
      (s.imgs i).overlays.map (applyOverlaySettings env) ∧
    ((refreshAllOverlays env s).imgs i).overlays.length =
      (s.imgs i).overlays.length ∧
    ((refreshAllOverlays env s).imgs i).isElement = (s.imgs i).isElement ∧
    ((refreshAllOverlays env s).imgs i).complete = (s.imgs i).complete ∧
    ((refreshAllOverlays env s).imgs i).naturalWidth = (s.imgs i).naturalWidth ∧
    ((refreshAllOverlays env s).imgs i).naturalHeight = (s.imgs i).naturalHeight ∧
    ((refreshAllOverlays env s).imgs i).hasParent = (s.imgs i).hasParent ∧
    ((refreshAllOverlays env s).imgs i).wrapped = (s.imgs i).wrapped ∧
    ((refreshAllOverlays env s).imgs i).processed = (s.imgs i).processed ∧
    ((refreshAllOverlays env s).imgs i).selectedClass = (s.imgs i).selectedClass ∧
    (refreshAllOverlays env s).selected = s.selected ∧
    (refreshAllOverlays env s).notifications = s.notifications := by
  simp [refreshAllOverlays]

/-- Claim C4: `generateNoisyDataUrl` fails with a distinguished error for
each failure mode — an image without measurable dimensions rejects with
the "cannot read image dimensions" message (distinct from the generic
failure and from every other failure message), an unobtainable drawing
surface rejects with the surface-creation message, and a security-blocked
pixel read is surfaced through the message handler as the localized
security-restriction message rather than the underlying technical error;
every outcome of the handler is a response (`ok` or an error field), never
a throw into the caller's context. -/
theorem C4_export_errors (img : ImgNode) (settings : Settings)
    (xenv : ExportEnv) (env : Env) (s : PageState)
    (payload : Option RawFields) (i : Nat) (e : JSError) :
    (img.naturalWidth = 0 →
      generateNoisyDataUrl (some img) settings xenv =
        .error { message := "이미지 크기를 불러올 수 없습니다." }) ∧
    ("이미지 크기를 불러올 수 없습니다." ≠ "이미지 저장에 실패했습니다." ∧
      "이미지 크기를 불러올 수 없습니다." ≠ "캔버스 컨텍스트 생성에 실패했습니다." ∧
      "이미지 크기를 불러올 수 없습니다." ≠ "보안 제한 때문에 이미지를 저장할 수 없습니다.") ∧
    (0 < img.naturalWidth → 0 < img.naturalHeight → xenv.ctxAvailable = false →
      generateNoisyDataUrl (some img) settings xenv =
        .error { message := "캔버스 컨텍스트 생성에 실패했습니다." }) ∧
    (s.selected = some i → (s.imgs i).naturalWidth ≠ 0 →
      (s.imgs i).naturalHeight ≠ 0 → xenv.ctxAvailable = true →
      xenv.pixelRead = .error e → isSecurityErrorMsg e.message = true →
      (handleGenerateNoisyImage env s payload xenv).2 =
        { ok := false,
          error := some "보안 제한 때문에 이미지를 저장할 수 없습니다.",
          dataUrl := none }) ∧
    ((handleGenerateNoisyImage env s payload xenv).2.ok = true ∨
      (handleGenerateNoisyImage env s payload xenv).2.error.isSome = true) := by
  refine ⟨?_, ⟨by decide, by decide, by decide⟩, ?_, ?_, ?_⟩
  · intro h
    simp [generateNoisyDataUrl, h]
  · intro h1 h2 h3
    have hw : img.naturalWidth ≠ 0 := Nat.pos_iff_ne_zero.mp h1
    have hh : img.naturalHeight ≠ 0 := Nat.pos_iff_ne_zero.mp h2
    simp [generateNoisyDataUrl, hw, hh, h3]
  · intro hsel hw hh hctx hpix hsec
    have hgen : ∀ st : Settings,
        generateNoisyDataUrl (some (s.imgs i)) st xenv = .error e := by
      intro st
      simp [generateNoisyDataUrl, hw, hh, hctx, hpix]
    simp [handleGenerateNoisyImage, hsel, hgen, hsec]
  · rcases hs : s.selected with _ | i
    · simp [handleGenerateNoisyImage, hs]
    · simp only [handleGenerateNoisyImage, hs]
      split <;> simp

/-- Witness for C4: a zero-width image rejects with the dimension
message, and a tainted-canvas pixel read surfaces the localized security
message through the handler. -/
theorem C4_export_errors_witness :
    generateNoisyDataUrl (some zeroWidthImg) DEFAULT_SETTINGS xenvOk =
      .error { message := "이미지 크기를 불러올 수 없습니다." } ∧
    (handleGenerateNoisyImage env0 pageS1 none xenvTainted).2 =
      { ok := false,
        error := some "보안 제한 때문에 이미지를 저장할 수 없습니다.",
        dataUrl := none } :=
  ⟨(C4_export_errors zeroWidthImg DEFAULT_SETTINGS xenvOk env0 pageS1 none 0
      { message := "" }).1 rfl,
   (C4_export_errors zeroWidthImg DEFAULT_SETTINGS xenvTainted env0 pageS1 none 0
      { message := "The canvas has been tainted by cross-origin data." }).2.2.2.1
      rfl (by decide) (by decide) rfl rfl (by decide)⟩

/-- Claim C7: a failed export is terminal only for that single operation —
the generate-noisy-image handler returns the texture state and the page
state (selection included) unchanged on every input, so subsequent
operations behave as if the failed export had not been attempted. -/
theorem C7_export_failure_frame (env : Env) (s : PageState)
    (payload : Option RawFields) (xenv : ExportEnv) :
    (handleGenerateNoisyImage env s payload xenv).1 = (env, s) ∧
    ((handleGenerateNoisyImage env s payload xenv).2.ok = false →
      (handleGenerateNoisyImage env s payload xenv).1.2.selected = s.selected) := by
  have hframe : (handleGenerateNoisyImage env s payload xenv).1 = (env, s) := by
    rcases hs : s.selected with _ | i
    · simp [handleGenerateNoisyImage, hs]
    · simp only [handleGenerateNoisyImage, hs]
      split <;> rfl
  exact ⟨hframe, fun _ => by rw [hframe]⟩

/-- Witness for C7: the failing tainted-canvas export leaves the page and
texture state — in particular the selection — unchanged. -/
theorem C7_export_failure_frame_witness :
    (handleGenerateNoisyImage env0 pageS1 none xenvTainted).1 = (env0, pageS1) ∧
    (handleGenerateNoisyImage env0 pageS1 none xenvTainted).1.2.selected =
      pageS1.selected :=
  ⟨(C7_export_failure_frame env0 pageS1 none xenvTainted).1,
   (C7_export_failure_frame env0 pageS1 none xenvTainted).2 rfl⟩

/-- The listener body on area `local` recomputes exactly when a
recognized field changed to an accepted value. -/
lemma handleStorageChange_isSome (changes : StorageChanges) (cur : Settings) :
    (handleStorageChange changes "local" cur).isSome = acceptedFieldChange changes := by
  unfold handleStorageChange acceptedFieldChange
  rcases changes with ⟨nt, it⟩
  rcases nt with _ | ⟨_ | t⟩ <;> rcases it with _ | ⟨_ | (_ | q)⟩ <;>
    simp <;> split <;> simp_all

/-- Counterexample for claim C8: on area `local`, a change set in which
the recognized `noiseType` field did change value — but to the
unsupported kind `"perlin"` — triggers no recomputation, so "triggered
iff at least one recognized field actually changed value" fails. -/
theorem C8_storage_counterexample :
    ¬(((handleStorageChange cexNoiseChange "local" DEFAULT_SETTINGS).isSome = true) ↔
      specRecognizedFieldChanged cexNoiseChange = true) := by
  decide

/-- Claim C8 as amended: storage-change events whose area is not `local`
are ignored, and a settings recomputation (`applySettings`) is triggered
if and only if the area is `local` and at least one recognized field
changed to an accepted value — `noiseType` to a supported kind, or
`intensity` to a defined, numerically parseable value. -/
theorem C8_storage_amended (changes : StorageChanges) (areaName : String)
    (cur : Settings) :
    (areaName ≠ "local" → handleStorageChange changes areaName cur = none) ∧
    ((handleStorageChange changes areaName cur).isSome = true ↔
      (areaName = "local" ∧ acceptedFieldChange changes = true)) := by
  constructor
  · intro h
    simp [handleStorageChange, h]
  · by_cases h : areaName = "local"
    · subst h
      rw [handleStorageChange_isSome]
      simp
    · simp [handleStorageChange, h]

/-- Witness for C8: a `sync`-area event is ignored, and a supported
noise-type change on `local` triggers the recomputation. -/
theorem C8_storage_amended_witness :
    handleStorageChange cexNoiseChange "sync" DEFAULT_SETTINGS = none ∧
    (handleStorageChange okNoiseChange "local" DEFAULT_SETTINGS).isSome = true :=
  ⟨(C8_storage_amended cexNoiseChange "sync" DEFAULT_SETTINGS).1 (by decide),
   (C8_storage_amended okNoiseChange "local" DEFAULT_SETTINGS).2.mpr
     ⟨rfl, by decide⟩⟩

/-- Claim C6: for every pair of uniform draws `u`, `v` in `(0,1)`, the
gaussian pixel grey level equals `⌊clamp((z+3)/6, 0, 1) * 255⌋` with
`z = sqrt(-2 ln u) * cos(2 π v)` the Box–Muller transform; the rescaled
value is clamped into `[0,1]` before scaling, so the grey level lies in
`[0, 255]`. -/
theorem C6_gaussianShade (u v : ℝ) (hu0 : 0 < u) (hu1 : u < 1)
    (hv0 : 0 < v) (hv1 : v < 1) :
    gaussianShade u v = specGaussianGrey u v ∧
    0 ≤ randomGaussianUnit u v ∧ randomGaussianUnit u v ≤ 1 ∧
    0 ≤ gaussianShade u v ∧ gaussianShade u v ≤ 255 := by
  have h0 : 0 ≤ randomGaussianUnit u v := by
    unfold randomGaussianUnit clamp
    exact le_min (le_max_right _ _) zero_le_one
  have h1 : randomGaussianUnit u v ≤ 1 := by
    unfold randomGaussianUnit clamp
    exact min_le_right _ _
  refine ⟨rfl, h0, h1, ?_, ?_⟩
  · exact Int.floor_nonneg.mpr (mul_nonneg h0 (by norm_num))
  · have h2 : randomGaussianUnit u v * 255 ≤ (255 : ℝ) := by nlinarith
    have h3 := Int.floor_mono h2
    simpa [gaussianShade] using h3

/-- Witness for C6 at the draws `u = v = 1/2`. -/
theorem C6_gaussianShade_witness :
    gaussianShade (1 / 2) (1 / 2) = specGaussianGrey (1 / 2) (1 / 2) ∧
    0 ≤ randomGaussianUnit (1 / 2) (1 / 2) ∧
    randomGaussianUnit (1 / 2) (1 / 2) ≤ 1 ∧
    0 ≤ gaussianShade (1 / 2) (1 / 2) ∧ gaussianShade (1 / 2) (1 / 2) ≤ 255 :=
  C6_gaussianShade (1 / 2) (1 / 2) (by norm_num) (by norm_num)
    (by norm_num) (by norm_num)

end ImageSubu
